import Mathlib

/-!
Shallow embedding of the report lifecycle and export pipeline of
src/app.py (AI Medical Assistant, a Streamlit single-page app).

The embedding covers:
- the per-session state dictionary st.session_state, of which the app
  only ever writes the two keys report_content and uploaded_image
  (app.py lines 124 to 127, 174 to 175);
- the Generate Report button handler (lines 102 to 132);
- the Export as DOCX button handler (lines 135 to 169), including its
  filesystem effects, modelled over an association-list filesystem with
  injectable failure points for the image write, the picture embedding
  and the document serialization;
- the Clear All button handler (lines 172 to 177);
- the image payload construction (line 110) and the uploader type
  allow-list (lines 92 to 95).

Uploaded file contents are modelled as lists of naturals (byte strings).
The external model call is opaque: its outcome is an input of the
generate handler, one of raised (the try/except at lines 116 to 132
catches it), falsy response (line 129), or a text response.
-/

/-- The two session-state keys the app writes (app.py lines 124 to 127).
Each field is none when the key is absent from st.session_state. -/
structure SessionState where
  report_content : Option String
  uploaded_image : Option (List Nat)
deriving Repr, DecidableEq

/-- A fresh session starts with no keys set. -/
def emptySession : SessionState := ⟨none, none⟩

/-- Outcome of the external call model.generate_content(prompt_input)
together with the response.text access (app.py lines 117 to 120): a
thrown error, a falsy response, or a response with text. -/
inductive ModelResult where
  | raised (msg : String)
  | emptyResponse
  | ok (text : String)
deriving Repr, DecidableEq

/-- What the Generate Report handler shows the user. -/
inductive GenOutcome where
  | warnNoImage
  | success (displayed : String)
  | failedShown
  | errorShown (msg : String)
deriving Repr, DecidableEq

/-- The img_payload dictionary built at app.py line 110. -/
structure ImgPayload where
  mime_type : String
  data : List Nat
deriving Repr, DecidableEq

/-- app.py line 110: the payload always declares mime_type image/jpeg,
whatever bytes were uploaded. -/
def mkImgPayload (imgData : List Nat) : ImgPayload :=
  { mime_type := "image/jpeg", data := imgData }

/-- app.py lines 92 to 95: the file uploader accepts these extensions. -/
def uploaderAllowedTypes : List String := ["png", "jpg", "jpeg"]

/-- The Generate Report button handler, app.py lines 102 to 132.
With no uploaded file it warns and does nothing (lines 104 to 105).
Otherwise the model outcome decides the branch; on a text response the
handler writes report_content and uploaded_image into session state,
each guarded by an absence check (lines 124 to 127), so an existing
value is kept rather than overwritten. -/
def generateReportHandler (uploaded : Option (List Nat)) (mr : ModelResult)
    (s : SessionState) : SessionState × GenOutcome :=
  match uploaded with
  | none => (s, .warnNoImage)
  | some imgData =>
    match mr with
    | .raised msg => (s, .errorShown msg)
    | .emptyResponse => (s, .failedShown)
    | .ok text =>
      let s1 := if s.report_content = none then
                  { s with report_content := some text } else s
      let s2 := if s1.uploaded_image = none then
                  { s1 with uploaded_image := some imgData } else s1
      (s2, .success text)

/-- Contents of a file on disk: raw image bytes, or a serialized
document (heading, embedded picture bytes and width, paragraph text),
mirroring what the export handler writes (app.py lines 138 to 154). -/
inductive FileContent where
  | bytes (b : List Nat)
  | docx (heading : String) (imageBytes : List Nat) (widthInches : Nat)
      (paragraph : String)
deriving Repr, DecidableEq

/-- The filesystem as an association list from path to contents. -/
abbrev FS := List (String × FileContent)

/-- Writing a file replaces any previous file at that path. -/
def fsWrite (fs : FS) (name : String) (c : FileContent) : FS :=
  (name, c) :: fs.filter (fun p => p.1 != name)

/-- Path.unlink: remove the file at a path. -/
def fsDelete (fs : FS) (name : String) : FS :=
  fs.filter (fun p => p.1 != name)

/-- Whether a file exists at a path. -/
def fsHas (fs : FS) (name : String) : Bool :=
  fs.any (fun p => p.1 == name)

/-- app.py line 144: the temporary image path is the fixed literal. -/
def img_path : String := "uploaded_image.jpg"

/-- app.py line 153: the document path is the fixed literal. -/
def doc_path : String := "AI_Medical_Report.docx"

/-- Injectable failure points of the export pipeline: the temp image
write at lines 145 to 146, doc.add_picture at line 147, and doc.save at
line 154 can each raise (disk full, permission, bad image). -/
structure ExportFailures where
  imgWrite : Bool
  addPicture : Bool
  docSave : Bool
deriving Repr, DecidableEq

/-- What the export handler run ends with: the empty-store warning
(line 169), a successful download offer of the serialized document, or
an exception propagating out of the handler (the block at lines 135 to
167 has no try/except and no finally, so a raise aborts the script run
with every statement after the raise point skipped). -/
inductive ExportResult where
  | warnNoReport
  | downloaded (doc : FileContent)
  | raisedUncaught (step : String)
deriving Repr, DecidableEq

/-- The Export as DOCX button handler, app.py lines 135 to 169, as a
function of the session state, the filesystem, and which pipeline steps
fail. It returns the filesystem as left behind and the visible result.
Both session-state keys must be present (line 136); otherwise it warns.
On the success path it writes the temp image, builds the document with
heading, picture at width 4 inches and the report paragraph, saves it,
offers the download, then unlinks both files (lines 166 to 167). On a
raising path execution stops at the raise, so no cleanup runs. -/
def exportButtonHandler (s : SessionState) (fs : FS) (f : ExportFailures) :
    FS × ExportResult :=
  match s.report_content, s.uploaded_image with
  | some text, some img =>
    if f.imgWrite then (fs, .raisedUncaught "img_write")
    else
      let fs1 := fsWrite fs img_path (.bytes img)
      if f.addPicture then (fs1, .raisedUncaught "add_picture")
      else
        let doc := FileContent.docx "AI Medical Assistant Report" img 4 text
        if f.docSave then (fs1, .raisedUncaught "doc_save")
        else
          let fs2 := fsWrite fs1 doc_path doc
          let fs3 := fsDelete (fsDelete fs2 img_path) doc_path
          (fs3, .downloaded doc)
  | _, _ => (fs, .warnNoReport)

/-- The Clear All button handler, app.py lines 172 to 177: deletes
every key of st.session_state. -/
def clearButtonHandler (_s : SessionState) : SessionState := emptySession

/-- A user-triggered action of the lifecycle controller. -/
inductive AppAction where
  | generate (uploaded : Option (List Nat)) (mr : ModelResult)
  | exportDocx (f : ExportFailures)
  | clearAll
deriving Repr, DecidableEq

/-- Combined app state: the session dictionary and the filesystem. -/
structure AppState where
  session : SessionState
  fs : FS
deriving Repr, DecidableEq

/-- What one script run shows the user. -/
inductive Outcome where
  | gen (g : GenOutcome)
  | exp (e : ExportResult)
  | cleared
deriving Repr, DecidableEq

/-- One script run of the app triggered by one action. The generate
handler only touches session state; the export handler only touches the
filesystem; clear resets session state. -/
def appStep (a : AppAction) (st : AppState) : AppState × Outcome :=
  match a with
  | .generate up mr =>
    let r := generateReportHandler up mr st.session
    (⟨r.1, st.fs⟩, .gen r.2)
  | .exportDocx f =>
    let r := exportButtonHandler st.session st.fs f
    (⟨st.session, r.1⟩, .exp r.2)
  | .clearAll => (⟨clearButtonHandler st.session, st.fs⟩, .cleared)

/-- Run a list of actions from a starting state. -/
def runActions (acts : List AppAction) (st : AppState) : AppState :=
  acts.foldl (fun st a => (appStep a st).1) st

/-- The invariant that report_content and uploaded_image are either
both present or both absent. -/
def bothOrNeither (s : SessionState) : Bool :=
  s.report_content.isSome == s.uploaded_image.isSome

/-- The temporary image path the export handler of a given session
uses. app.py line 144 is the fixed literal Path("uploaded_image.jpg");
nothing session- or call-specific enters the name, so the result is the
same constant for every session identifier. -/
def exportImgPathFor (_sid : Nat) : String := img_path

/-- The document path the export handler of a given session uses.
app.py line 153 is the fixed literal Path("AI_Medical_Report.docx"),
independent of any session identity. -/
def exportDocPathFor (_sid : Nat) : String := doc_path

/-! ### Helper lemmas about the filesystem model -/

theorem fsHas_fsWrite_self (fs : FS) (n : String) (c : FileContent) :
    fsHas (fsWrite fs n c) n = true := by
  simp [fsHas, fsWrite]

theorem fsHas_fsDelete_self (fs : FS) (n : String) :
    fsHas (fsDelete fs n) n = false := by
  simp [fsHas, fsDelete, List.any_filter, bne]

theorem fsHas_fsDelete_other (fs : FS) (m n : String) (h : m ≠ n) :
    fsHas (fsDelete fs m) n = fsHas fs n := by
  simp only [fsHas, fsDelete, List.any_filter]
  congr 1
  funext a
  by_cases ha : a.1 = n
  · simp [ha, bne, Ne.symm h]
  · simp [ha]

/-! ### Claim theorems -/

/-- Claim C1: the claim states that a second successful generate with a
different response text overwrites the stored report. The code does the
opposite: the session-state writes at app.py lines 124 to 127 are each
guarded by an absence check, so the store keeps the first response
(first-write-wins) even though the handler displays the second one.
This theorem evaluates the handler at the failing input: generate twice
from an empty session with responses A then B; the store still holds A,
not B, while the screen shows B. -/
theorem c1_second_generate_does_not_overwrite :
    ((generateReportHandler (some [7]) (ModelResult.ok "B")
        (generateReportHandler (some [7]) (ModelResult.ok "A")
          emptySession).1).1.report_content = some "A") ∧
    ((generateReportHandler (some [7]) (ModelResult.ok "B")
        (generateReportHandler (some [7]) (ModelResult.ok "A")
          emptySession).1).1.report_content ≠ some "B") ∧
    ((generateReportHandler (some [7]) (ModelResult.ok "B")
        (generateReportHandler (some [7]) (ModelResult.ok "A")
          emptySession).1).2 = GenOutcome.success "B") := by
  refine ⟨rfl, ?_, rfl⟩
  decide

/-- Claim C2 counterexample: with a report in the store and an empty
filesystem, an export in which document serialization (doc.save, app.py
line 154) raises leaves the temporary image file on disk: the unlink
calls at lines 166 to 167 are only reached on the success path, so the
claim that both temp files are deleted on every exit path is false. -/
theorem c2_counterexample_docsave_leaves_temp_file :
    fsHas (exportButtonHandler ⟨some "R", some [1]⟩ []
      ⟨false, false, true⟩).1 img_path = true := by
  decide

/-- Claim C2 amended: the export handler deletes both temporary files
on the successful exit path only; when building the document or
serializing it raises, the temporary image file written before the
raise remains on persistent storage. -/
theorem c2_amended_cleanup_only_on_success (text : String) (img : List Nat)
    (fs : FS) :
    (fsHas (exportButtonHandler ⟨some text, some img⟩ fs
        ⟨false, false, false⟩).1 img_path = false ∧
     fsHas (exportButtonHandler ⟨some text, some img⟩ fs
        ⟨false, false, false⟩).1 doc_path = false) ∧
    fsHas (exportButtonHandler ⟨some text, some img⟩ fs
        ⟨false, false, true⟩).1 img_path = true ∧
    fsHas (exportButtonHandler ⟨some text, some img⟩ fs
        ⟨false, true, false⟩).1 img_path = true := by
  refine ⟨⟨?_, ?_⟩, ?_, ?_⟩
  · show fsHas (fsDelete (fsDelete _ img_path) doc_path) img_path = false
    rw [fsHas_fsDelete_other _ _ _ (by decide)]
    exact fsHas_fsDelete_self _ _
  · exact fsHas_fsDelete_self _ _
  · exact fsHas_fsWrite_self _ _ _
  · exact fsHas_fsWrite_self _ _ _

/-- Claim C3 counterexample: when document serialization raises during
an export of a stored report, the handler does not turn the failure
into a recoverable user-visible error: the block at app.py lines 135
to 167 has no try/except, so the exception propagates uncaught, and the
already-written temporary image file is left behind. -/
theorem c3_counterexample_failure_is_uncaught :
    ((exportButtonHandler ⟨some "report", some [3]⟩ []
        ⟨false, false, true⟩).2 = ExportResult.raisedUncaught "doc_save") ∧
    fsHas (exportButtonHandler ⟨some "report", some [3]⟩ []
      ⟨false, false, true⟩).1 img_path = true := by
  exact ⟨rfl, by decide⟩

/-- Claim C3 amended: when the temp-file write or the document
serialization fails during export of a stored report, the exception
propagates uncaught out of the export handler (there is no ExportFailed
handling), and in the serialization-failure case the temporary image
file written before the failure remains on disk; in the write-failure
case the filesystem is unchanged. -/
theorem c3_amended_exception_propagates (text : String) (img : List Nat)
    (fs : FS) :
    ((exportButtonHandler ⟨some text, some img⟩ fs ⟨true, false, false⟩).2
        = ExportResult.raisedUncaught "img_write" ∧
     (exportButtonHandler ⟨some text, some img⟩ fs ⟨true, false, false⟩).1
        = fs) ∧
    ((exportButtonHandler ⟨some text, some img⟩ fs ⟨false, false, true⟩).2
        = ExportResult.raisedUncaught "doc_save" ∧
     fsHas (exportButtonHandler ⟨some text, some img⟩ fs
        ⟨false, false, true⟩).1 img_path = true) :=
  ⟨⟨rfl, rfl⟩, rfl, fsHas_fsWrite_self _ _ _⟩

/-- Claim C4 counterexample: two distinct sessions served by one
process use the very same temporary paths during export, because app.py
lines 144 and 153 hardcode the names; so the claim that concurrent
exports never collide on the same path is false. -/
theorem c4_counterexample_sessions_share_paths :
    (0 : Nat) ≠ 1 ∧ exportImgPathFor 0 = exportImgPathFor 1 ∧
      exportDocPathFor 0 = exportDocPathFor 1 :=
  ⟨by decide, rfl, rfl⟩

/-- Claim C4 amended: the temporary files written during export use
fixed constant names shared by every session of the process, so two
concurrent exports use the same paths and can collide. -/
theorem c4_amended_fixed_shared_paths (sid1 sid2 : Nat) :
    exportImgPathFor sid1 = "uploaded_image.jpg" ∧
    exportDocPathFor sid1 = "AI_Medical_Report.docx" ∧
    exportImgPathFor sid1 = exportImgPathFor sid2 ∧
    exportDocPathFor sid1 = exportDocPathFor sid2 :=
  ⟨rfl, rfl, rfl, rfl⟩

/-- Claim C5: the claim states that after every valid upload followed
by a successful analysis call the stored source image equals the
uploaded bytes. The guarded write at app.py lines 126 to 127 keeps the
old image when one is already stored, so at the failing input (a prior
report from upload [1] exists, a new upload [2] is analyzed
successfully) the store still holds [1], not the uploaded [2]. From an
empty store the bytes are stored exactly as uploaded. -/
theorem c5_stored_image_can_be_stale :
    ((generateReportHandler (some [2]) (ModelResult.ok "new")
        (generateReportHandler (some [1]) (ModelResult.ok "old")
          emptySession).1).1.uploaded_image = some [1]) ∧
    ((generateReportHandler (some [2]) (ModelResult.ok "new")
        (generateReportHandler (some [1]) (ModelResult.ok "old")
          emptySession).1).1.uploaded_image ≠ some [2]) ∧
    ((generateReportHandler (some [2]) (ModelResult.ok "new")
        emptySession).1.uploaded_image = some [2]) := by
  refine ⟨rfl, ?_, rfl⟩
  decide

/-- Claim C6: a generate action with no uploaded image yields the
no-image warning and leaves the session state unchanged, whatever the
model outcome and whatever the store held before. -/
theorem c6_generate_without_upload (mr : ModelResult) (s : SessionState) :
    generateReportHandler none mr s = (s, GenOutcome.warnNoImage) := rfl

/-- Claim C7: an export triggered while the store is empty yields the
no-report warning, writes no file, and leaves the whole app state (the
empty session and the filesystem) unchanged, for every filesystem and
every choice of failure injection. -/
theorem c7_export_with_empty_store (fs : FS) (f : ExportFailures) :
    appStep (AppAction.exportDocx f) ⟨emptySession, fs⟩ =
      (⟨emptySession, fs⟩, Outcome.exp ExportResult.warnNoReport) := rfl

/-- Claim C8: clearing always results in the empty store regardless of
prior state, clearing twice equals clearing once, and clearing an
already-empty store is a no-op. -/
theorem c8_clear_idempotent (s : SessionState) :
    clearButtonHandler s = emptySession ∧
    clearButtonHandler (clearButtonHandler s) = clearButtonHandler s ∧
    clearButtonHandler emptySession = emptySession :=
  ⟨rfl, rfl, rfl⟩

/-- Claim C10: the uploader accepts png, jpg and jpeg files, yet the
payload sent to the model always declares mime_type image/jpeg: the
declared type is a constant independent of the uploaded bytes. -/
theorem c10_mime_type_constant :
    uploaderAllowedTypes = ["png", "jpg", "jpeg"] ∧
    ∀ d1 d2 : List Nat, (mkImgPayload d1).mime_type = "image/jpeg" ∧
      (mkImgPayload d1).mime_type = (mkImgPayload d2).mime_type :=
  ⟨rfl, fun _ _ => ⟨rfl, rfl⟩⟩

/-- Every single script run preserves the lockstep of report_content
and uploaded_image. -/
theorem appStep_preserves_bothOrNeither (a : AppAction) (st : AppState)
    (h : bothOrNeither st.session = true) :
    bothOrNeither (appStep a st).1.session = true := by
  obtain ⟨⟨rc, ui⟩, fs⟩ := st
  cases a with
  | generate up mr =>
    cases up with
    | none => exact h
    | some img =>
      cases mr with
      | raised msg => exact h
      | emptyResponse => exact h
      | ok text =>
        cases rc <;> cases ui <;>
          simp_all [appStep, generateReportHandler, bothOrNeither]
  | exportDocx f => exact h
  | clearAll => rfl

/-- Every state reached from a fresh session by any sequence of user
actions keeps the two keys in lockstep. -/
theorem runActions_bothOrNeither (acts : List AppAction) (st : AppState)
    (h : bothOrNeither st.session = true) :
    bothOrNeither (runActions acts st).session = true := by
  induction acts generalizing st with
  | nil => exact h
  | cons a t ih =>
    exact ih (appStep a st).1 (appStep_preserves_bothOrNeither a st h)

/-- Claim C9: every operation (generate, export, clear) preserves the
invariant that report_content and uploaded_image are either both
present or both absent, and consequently every state reachable from a
fresh session satisfies it: no reachable state has one key without the
other. -/
theorem c9_report_and_image_in_lockstep :
    (∀ (a : AppAction) (st : AppState), bothOrNeither st.session = true →
        bothOrNeither (appStep a st).1.session = true) ∧
    (∀ (acts : List AppAction) (fs0 : FS),
        bothOrNeither (runActions acts ⟨emptySession, fs0⟩).session = true) :=
  ⟨appStep_preserves_bothOrNeither,
   fun acts fs0 => runActions_bothOrNeither acts ⟨emptySession, fs0⟩ rfl⟩

/-- Claim C9 witness: the preservation half of the theorem applied at a
concrete state holding a report and its image, under a clear action. -/
theorem c9_report_and_image_in_lockstep_witness :
    bothOrNeither
      (appStep AppAction.clearAll ⟨⟨some "r", some [1]⟩, []⟩).1.session
      = true :=
  c9_report_and_image_in_lockstep.1 AppAction.clearAll
    ⟨⟨some "r", some [1]⟩, []⟩ (by decide)
